import Mathlib

/-!
# Verification of the two-stage recommendation pipeline

Shallow embedding of `src/pages/3_Recommendations.py` (the `geo-hack`
repository).  The pipeline there is `generate_recommendations`: it loads a
data bundle from the relational store, runs a strategic-selector LLM call,
validates its output, persists a session row, and then, per selected action,
runs a content-generator LLM call and persists one action row plus its
example rows.

External nondeterminism (the two LLM responses) is passed in explicitly:
the selector outcome as a `SelectorResp` and each per-action generator
outcome as a `GenResp`.  Each constructor of these types corresponds to one
branch of the Python code's validation ladder, so the Lean control flow can
be diffed line-by-line against `generate_recommendations`.

The relational store is modelled as `DB`: three tables as lists of rows plus
AUTOINCREMENT counters.  Only committed writes mutate `DB` (rolled-back
statements in the Python code leave no trace in the store, so they produce
no change here); every committed insert is also recorded, in order, in a
write trace (`Ev`).
-/

/-- One entry of the `ALLOWED_ACTIONS` list (lines 60-91 of
`3_Recommendations.py`): the fixed six-item action taxonomy. -/
structure AllowedAction where
  id : String
  name : String
  description : String
deriving DecidableEq, Repr

/-- The `ALLOWED_ACTIONS` list of lines 60-91, verbatim. -/
def ALLOWED_ACTIONS : List AllowedAction := [
  ⟨"linkedin_posts", "LinkedIn Thought Leadership Posts",
   "Professional posts to establish authority and engage with your target audience"⟩,
  ⟨"blog_content", "Blog Content Ideas",
   "Long-form content addressing ICP pain points and showcasing expertise"⟩,
  ⟨"guest_posting", "Guest Posting Opportunities",
   "Target blogs and domains for guest articles to expand reach"⟩,
  ⟨"email_campaigns", "Email Campaign Ideas",
   "Email sequences for nurturing leads and engaging prospects"⟩,
  ⟨"content_partnerships", "Content Partnership Targets",
   "Collaborate with cited domains and publications for mutual benefit"⟩,
  ⟨"social_media_threads", "Social Media Thread Concepts",
   "Twitter/LinkedIn threads on key topics to drive engagement"⟩]

/-- The valid-id set `valid_ids = {a['id'] for a in ALLOWED_ACTIONS}`
(line 574). -/
def valid_ids : List String := ALLOWED_ACTIONS.map (fun a => a.id)

/-- The taxonomy lookup
`next((a for a in ALLOWED_ACTIONS if a['id'] == action['action_id']), None)`
of lines 275 and 618. -/
def actionDef (aid : String) : Option AllowedAction :=
  ALLOWED_ACTIONS.find? (fun a => a.id == aid)

/-- The brand record returned by `load_brand_info` (lines 94-105); `None`
in Python is `Option.none` at the call site. -/
structure Brand where
  name : String
  url : String
  description : String
deriving DecidableEq, Repr

/-- One ICP persona as returned by `load_icp_personas` (lines 107-120). -/
structure ICP where
  name : String
  role : String
  goals : String
  challenges : String
deriving DecidableEq, Repr

/-- One chat record as returned by `load_sample_chats` (lines 122-134). -/
structure Chat where
  user_question : String
  assistant_response : String
  model : String
deriving DecidableEq, Repr

/-- One row of the `peec_domains` table
(`domain TEXT PRIMARY KEY, type REAL, percent REAL, citiatons REAL`,
created in `1_Import.py`).  The two REAL columns are modelled as `Int`:
only their total order matters to the pipeline (ranking by `citiatons`). -/
structure PeecDomain where
  domain : String
  dtype : String
  percent : Int
  citiatons : Int
deriving DecidableEq, Repr

/-- One record of `load_top_domains`'s return list (lines 141-149): the
row dict with renamed keys. -/
structure DomainDict where
  domain : String
  dtype : String
  usage_percent : Int
  avg_citations : Int
deriving DecidableEq, Repr

/-- The dict construction in `load_top_domains` (lines 142-148). -/
def toDomainDict (r : PeecDomain) : DomainDict :=
  ⟨r.domain, r.dtype, r.percent, r.citiatons⟩

/-- Predicate: `l` is ordered by the `citiatons` column, largest first (what
`ORDER BY citiatons DESC` guarantees about the returned row order). -/
def citationsDesc (l : List PeecDomain) : Prop :=
  l.Pairwise (fun x y => y.citiatons ≤ x.citiatons)

instance (l : List PeecDomain) : Decidable (citationsDesc l) :=
  List.instDecidablePairwise l

/-- Relational embedding of `load_top_domains` (lines 136-149): it runs
`SELECT domain, type, percent, citiatons FROM peec_domains ORDER BY citiatons
DESC LIMIT :limit` and maps each row to a dict.  SQL fixes the multiset of
rows and the descending order of the sort key, but the relative order of
rows with equal `citiatons` is unspecified; so the function is embedded as
a relation: `out` is a possible return value for table contents `stored`. -/
def load_top_domains_rel (stored : List PeecDomain) (limit : Nat)
    (out : List DomainDict) : Prop :=
  ∃ p : List PeecDomain, p.Perm stored ∧ citationsDesc p ∧
    out = (p.take limit).map toDomainDict

/-- Lexicographic order on character lists, used to spell out the claimed
"ties broken by domain name" executably. -/
def charListLe : List Char → List Char → Bool
  | [], _ => true
  | _ :: _, [] => false
  | a :: as, b :: bs => if a = b then charListLe as bs else decide (a < b)

/-- The claim's reading of `load_top_domains`, written from the spec's
words for comparison with `load_top_domains_rel`: sort by average-citations
descending **with ties broken deterministically by domain name**, then take
`limit`.  (Insertion sort on the lexicographic key ⟨-citations, name⟩.) -/
def load_top_domains_claimed (stored : List PeecDomain) (limit : Nat) :
    List DomainDict :=
  ((stored.insertionSort
      (fun x y => y.citiatons < x.citiatons ∨
        (y.citiatons = x.citiatons ∧
          charListLe x.domain.data y.domain.data = true))).take limit).map
    toDomainDict

/-! ## The recommendation store -/

/-- One committed row of `recommendation_sessions` (schema lines 20-27; the
insert at lines 598-609).  `data_snapshot` is `json.dumps` of the three
counts; the counts are stored directly here. -/
structure SessionRow where
  id : Nat
  created_at : String
  brand_name : String
  icp_count : Nat
  chat_count : Nat
  domain_count : Nat
deriving DecidableEq, Repr

/-- One committed row of `recommendation_actions` (schema lines 30-41; the
insert at lines 642-653).  `target_icps` is stored as `json.dumps` of a
string list; the list is stored directly here. -/
structure ActionRow where
  id : Nat
  session_id : Nat
  action_type : String
  action_name : String
  rationale : String
  target_icps : List String
  priority : Int
deriving DecidableEq, Repr

/-- One committed row of `recommendation_examples` (schema lines 44-52; the
insert at lines 659-667). -/
structure ExampleRow where
  id : Nat
  action_id : Nat
  title : String
  content : String
  targeting_notes : String
deriving DecidableEq, Repr

/-- The three pipeline-owned tables plus their AUTOINCREMENT counters.
Only committed inserts appear. -/
structure DB where
  sessions : List SessionRow
  actions : List ActionRow
  examples : List ExampleRow
  nextSessionId : Nat
  nextActionId : Nat
  nextExampleId : Nat
deriving DecidableEq, Repr

/-- A committed insert event, for stating ordering guarantees. -/
inductive Ev where
  | sessionIns (id : Nat)
  | actionIns (id : Nat) (session_id : Nat)
  | exampleIns (id : Nat) (action_id : Nat)
deriving DecidableEq, Repr

/-! ## External responses -/

/-- One object of the selector's `selected_actions` array.  The code reads
`action['action_id']`, `action['rationale']`, `action['target_icps']`
directly (KeyError if absent) but uses `action.get('priority', 99)`
(line 652), so only `priority` is optional here. -/
structure SelAction where
  action_id : String
  rationale : String
  target_icps : List String
  priority : Option Int
deriving DecidableEq, Repr

/-- Outcome of the Stage-1 call `call_strategic_selector` plus the parsing
of its text, one constructor per branch of lines 551-594:
* `apiFailure` — the call raised (e.g. the empty-choices `ValueError` of
  line 269, or a transport error), caught at lines 586-594;
* `empty` — falsy response text (`if not selector_response`, line 553);
* `notJson` — `json.loads` raised `JSONDecodeError` (line 557 → 580);
* `noKey` — parsed JSON without a `'selected_actions'` key (line 559);
* `actions l` — parsed JSON whose `'selected_actions'` value is `l`. -/
inductive SelectorResp where
  | apiFailure : SelectorResp
  | empty : SelectorResp
  | notJson : SelectorResp
  | noKey : SelectorResp
  | actions (l : List SelAction) : SelectorResp
deriving DecidableEq, Repr

/-- One object of the generator's `examples` array.  All three keys are
read defensively (`get` with default for `title` and `targeting_notes`,
mandatory `['content']`), so all three are `Option` here. -/
structure GenExample where
  title : Option String
  content : Option String
  targeting_notes : Option String
deriving DecidableEq, Repr

/-- Outcome of one Stage-2 call `call_content_generator` plus the parsing
of its text, one constructor per branch of lines 622-637:
`apiFailure` (call raised), `empty` (falsy text, line 624), `notJson`
(line 628 → 670), `noKey` (no `'examples'` key, line 630), or
`examples l`. -/
inductive GenResp where
  | apiFailure : GenResp
  | empty : GenResp
  | notJson : GenResp
  | noKey : GenResp
  | examples (l : List GenExample) : GenResp
deriving DecidableEq, Repr

/-! ## The pipeline -/

/-- Result of one run of `generate_recommendations`: the store afterwards,
the returned boolean, how many completion-API calls were made, how many
`st.warning` messages were emitted, and the ordered trace of committed
inserts. -/
structure RunResult where
  db : DB
  ok : Bool
  apiCalls : Nat
  warnings : Nat
  trace : List Ev
deriving DecidableEq, Repr

/-- The key check `if not api_key or api_key == "your-openai-api-key-here"`
of line 522. -/
def apiKeyBad : Option String → Bool
  | none => true
  | some k => k == "" || k == "your-openai-api-key-here"

/-- The action row built by the insert at lines 642-653: note
`'priority': action.get('priority', 99)` (line 652). -/
def mkActionRow (db : DB) (sessionId : Nat) (a : SelAction) : ActionRow :=
  { id := db.nextActionId
    session_id := sessionId
    action_type := a.action_id
    action_name := ((actionDef a.action_id).getD ⟨a.action_id, "", ""⟩).name
    rationale := a.rationale
    target_icps := a.target_icps
    priority := a.priority.getD 99 }

/-- The example row built by the insert at lines 659-667: note
`example.get('title', 'Untitled')`, mandatory `example['content']`, and
`example.get('targeting_notes', '')`. -/
def mkExampleRow (eid : Nat) (actionId : Nat) (e : GenExample) : ExampleRow :=
  { id := eid
    action_id := actionId
    title := e.title.getD "Untitled"
    content := e.content.getD ""
    targeting_notes := e.targeting_notes.getD "" }

/-- One iteration of the Stage-2 loop body (lines 621-681), given this
action's generator outcome.  Returns the store afterwards, the number of
warnings emitted (0 or 1) and the committed-insert events.

* The four recoverable failures and the empty `examples` array each warn
  and `continue` before any insert (lines 624-638).
* Otherwise the action row is inserted and committed (lines 641-655), then
  the example rows are inserted and committed together (lines 657-668).
  If some example lacks `'content'`, `example['content']` raises KeyError
  inside the scoped session before the second commit: the pending example
  inserts are rolled back when the session closes, the generic handler
  warns and continues (lines 678-681), and the already-committed action
  row stays. -/
def processAction (db : DB) (sessionId : Nat) (a : SelAction)
    (resp : GenResp) : DB × Nat × List Ev :=
  match resp with
  | .apiFailure => (db, 1, [])
  | .empty => (db, 1, [])
  | .notJson => (db, 1, [])
  | .noKey => (db, 1, [])
  | .examples exs =>
    if exs.length = 0 then (db, 1, [])
    else
      let row := mkActionRow db sessionId a
      let db1 : DB := { db with
        actions := db.actions ++ [row]
        nextActionId := db.nextActionId + 1 }
      if exs.all (fun e => e.content.isSome) then
        let newRows := exs.enum.map
          (fun ei => mkExampleRow (db1.nextExampleId + ei.1) row.id ei.2)
        ({ db1 with
            examples := db1.examples ++ newRows
            nextExampleId := db1.nextExampleId + exs.length },
         0,
         .actionIns row.id sessionId ::
           newRows.map (fun r => .exampleIns r.id r.action_id))
      else
        (db1, 1, [.actionIns row.id sessionId])

/-- The Stage-2 loop (lines 617-683): one generator call per selected
action, in order; `gens idx` is the outcome of the call for the `idx`-th
action.  Accumulates the store, warning count and event trace. -/
def runLoop (sessionId : Nat) (gens : Nat → GenResp) :
    List SelAction → Nat → DB → DB × Nat × List Ev
  | [], _, db => (db, 0, [])
  | a :: rest, idx, db =>
    let r1 := processAction db sessionId a (gens idx)
    let r2 := runLoop sessionId gens rest (idx + 1) r1.1
    (r2.1, r1.2.1 + r2.2.1, r1.2.2 ++ r2.2.2)

/-- Main orchestration `generate_recommendations` (lines 518-688), with the
loaded bundle and
the external call outcomes as arguments:

* line 522: bad API key → `return False`;
* lines 533-539: missing brand / zero ICPs → `return False` before any
  API call;
* lines 548-594: Stage 1 — any of the fatal selector outcomes, a zero
  `selected_actions` array, or any `action_id` outside `valid_ids` →
  `return False` with nothing written; an action count outside [3,5] is a
  warning only (line 570-571);
* lines 596-611: insert and commit exactly one session row;
* lines 617-683: the Stage-2 loop;
* line 688: `return True`. -/
def generate_recommendations (api_key : Option String) (brand : Option Brand)
    (icps : List ICP) (chats : List Chat) (domains : List DomainDict)
    (sel : SelectorResp) (gens : Nat → GenResp) (now : String) (db : DB) :
    RunResult :=
  if apiKeyBad api_key then ⟨db, false, 0, 0, []⟩
  else
    match brand with
    | none => ⟨db, false, 0, 0, []⟩
    | some b =>
      if icps.length = 0 then ⟨db, false, 0, 0, []⟩
      else
        match sel with
        | .apiFailure => ⟨db, false, 1, 0, []⟩
        | .empty => ⟨db, false, 1, 0, []⟩
        | .notJson => ⟨db, false, 1, 0, []⟩
        | .noKey => ⟨db, false, 1, 0, []⟩
        | .actions acts =>
          if acts.length = 0 then ⟨db, false, 1, 0, []⟩
          else
            let w0 : Nat :=
              if acts.length < 3 || acts.length > 5 then 1 else 0
            if acts.any (fun a => !(valid_ids.contains a.action_id)) then
              ⟨db, false, 1, w0, []⟩
            else
              let srow : SessionRow :=
                ⟨db.nextSessionId, now, b.name, icps.length, chats.length,
                 domains.length⟩
              let db1 : DB := { db with
                sessions := db.sessions ++ [srow]
                nextSessionId := db.nextSessionId + 1 }
              let r := runLoop srow.id gens acts 0 db1
              ⟨r.1, true, 1 + acts.length, w0 + r.2.1,
               .sessionIns srow.id :: r.2.2⟩

/-- Predicate: `selectorFatal sel` holds exactly when Stage 1 fails fatally
for one of
the five reasons of the error ladder in lines 551-594. -/
def selectorFatal (sel : SelectorResp) : Prop :=
  sel = .apiFailure ∨ sel = .empty ∨ sel = .notJson ∨ sel = .noKey ∨
    (∃ acts, sel = .actions acts ∧
      (acts = [] ∨ ∃ a ∈ acts, a.action_id ∉ valid_ids))

/-- The four per-action recoverable outcomes of lines 624-638 plus the
empty examples array: warn and `continue`. -/
def recoverableGenFailure (r : GenResp) : Prop :=
  r = .apiFailure ∨ r = .empty ∨ r = .notJson ∨ r = .noKey ∨
    r = .examples []

/-! ## Referential integrity and write ordering (C5) -/

/-- Referential integrity of the three pipeline tables: every action row
references an existing session row and every example row references an
existing action row. -/
def dbIntegrity (db : DB) : Prop :=
  (∀ a ∈ db.actions, ∃ s ∈ db.sessions, s.id = a.session_id) ∧
  (∀ e ∈ db.examples, ∃ a ∈ db.actions, a.id = e.action_id)

/-- Session ids inserted so far after replaying a trace. -/
def sidsAfter (sids : List Nat) : List Ev → List Nat
  | [] => sids
  | .sessionIns i :: rest => sidsAfter (i :: sids) rest
  | .actionIns _ _ :: rest => sidsAfter sids rest
  | .exampleIns _ _ :: rest => sidsAfter sids rest

/-- Action ids inserted so far after replaying a trace. -/
def aidsAfter (aids : List Nat) : List Ev → List Nat
  | [] => aids
  | .sessionIns _ :: rest => aidsAfter aids rest
  | .actionIns i _ :: rest => aidsAfter (i :: aids) rest
  | .exampleIns _ _ :: rest => aidsAfter aids rest

/-- Replaying the trace with already-present session ids `sids` and action
ids `aids`: every action insert names an already-inserted session and
every example insert names an already-inserted action. -/
def goodFrom (sids aids : List Nat) : List Ev → Prop
  | [] => True
  | .sessionIns i :: rest => goodFrom (i :: sids) aids rest
  | .actionIns i sid :: rest => sid ∈ sids ∧ goodFrom sids (i :: aids) rest
  | .exampleIns _ aid :: rest => aid ∈ aids ∧ goodFrom sids aids rest

/-- A trace is well-ordered when replaying it from empty id sets succeeds:
the session row is committed before any action row referencing it, and
each action row before any of its example rows. -/
def goodTrace (tr : List Ev) : Prop := goodFrom [] [] tr

/-! ## Helper lemmas -/

lemma processAction_sessions (db : DB) (sid : Nat) (a : SelAction)
    (r : GenResp) : (processAction db sid a r).1.sessions = db.sessions := by
  cases r with
  | examples exs => simp only [processAction]; split_ifs <;> rfl
  | apiFailure => rfl
  | empty => rfl
  | notJson => rfl
  | noKey => rfl

lemma runLoop_sessions (sid : Nat) (gens : Nat → GenResp) :
    ∀ (acts : List SelAction) (idx : Nat) (db : DB),
      (runLoop sid gens acts idx db).1.sessions = db.sessions
  | [], _, _ => rfl
  | a :: rest, idx, db => by
    simp only [runLoop]
    rw [runLoop_sessions sid gens rest (idx + 1) _]
    exact processAction_sessions db sid a (gens idx)


lemma genRec_fatal (api_key : Option String) (brand : Option Brand)
    (icps : List ICP) (chats : List Chat) (domains : List DomainDict)
    (sel : SelectorResp) (gens : Nat → GenResp) (now : String) (db : DB)
    (h : selectorFatal sel) :
    (generate_recommendations api_key brand icps chats domains sel gens
        now db).db = db ∧
    (generate_recommendations api_key brand icps chats domains sel gens
        now db).ok = false ∧
    (generate_recommendations api_key brand icps chats domains sel gens
        now db).trace = [] := by
  unfold generate_recommendations
  by_cases hk : apiKeyBad api_key
  · simp [hk]
  · simp only [hk, Bool.false_eq_true, if_false]
    cases brand with
    | none => exact ⟨rfl, rfl, rfl⟩
    | some b =>
      by_cases hi : icps.length = 0
      · simp [hi]
      · simp only [hi, if_false]
        rcases h with rfl | rfl | rfl | rfl | ⟨acts, rfl, hbad⟩
        · exact ⟨rfl, rfl, rfl⟩
        · exact ⟨rfl, rfl, rfl⟩
        · exact ⟨rfl, rfl, rfl⟩
        · exact ⟨rfl, rfl, rfl⟩
        · rcases hbad with rfl | ⟨a, ha, hnot⟩
          · simp
          · have hlen : acts.length ≠ 0 := by
              intro h0
              rw [List.length_eq_zero] at h0
              subst h0
              simp at ha
            simp only [hlen, if_false]
            simp only [List.any_eq_true, Bool.not_eq_true',
              Bool.not_eq_true, ← Bool.not_eq_true]
            rw [if_pos]
            · exact ⟨rfl, by simp, rfl⟩
            · exact ⟨a, ha, by simpa using hnot⟩

/-- Claim C7: if the brand record is absent or there are zero ICP personas,
`generate_recommendations` returns `False` before making any completion-API
call and before writing any recommendation row (lines 533-539). -/
theorem C7_preconditions_abort_before_api (api_key : Option String)
    (brand : Option Brand) (icps : List ICP) (chats : List Chat)
    (domains : List DomainDict) (sel : SelectorResp) (gens : Nat → GenResp)
    (now : String) (db : DB) (h : brand = none ∨ icps = []) :
    generate_recommendations api_key brand icps chats domains sel gens now
      db = ⟨db, false, 0, 0, []⟩ := by
  unfold generate_recommendations
  by_cases hk : apiKeyBad api_key
  · simp [hk]
  · rcases h with rfl | rfl
    · simp [hk]
    · cases brand <;> simp [hk]

theorem C7_witness :
    generate_recommendations (some "k") none [⟨"n", "r", "g", "c"⟩] [] []
      .empty (fun _ => .apiFailure) "t" ⟨[], [], [], 0, 0, 0⟩ =
      ⟨⟨[], [], [], 0, 0, 0⟩, false, 0, 0, []⟩ :=
  C7_preconditions_abort_before_api (some "k") none [⟨"n", "r", "g", "c"⟩]
    [] [] .empty (fun _ => .apiFailure) "t" ⟨[], [], [], 0, 0, 0⟩
    (Or.inl rfl)

/-- Claim C1: if the strategic-selection stage fails for any of its fatal
reasons (selector call raised / empty response, unparseable JSON, missing
`'selected_actions'`, zero actions, or any invalid action id), then
`generate_recommendations` aborts (`False`) with the store untouched and
no insert committed — in particular no session row is created. -/
theorem C1_fatal_selection_writes_nothing (api_key : Option String)
    (brand : Option Brand) (icps : List ICP) (chats : List Chat)
    (domains : List DomainDict) (sel : SelectorResp) (gens : Nat → GenResp)
    (now : String) (db : DB) (h : selectorFatal sel) :
    (generate_recommendations api_key brand icps chats domains sel gens now
        db).db = db ∧
    (generate_recommendations api_key brand icps chats domains sel gens now
        db).ok = false ∧
    (generate_recommendations api_key brand icps chats domains sel gens now
        db).trace = [] :=
  genRec_fatal api_key brand icps chats domains sel gens now db h

theorem C1_witness :
    (generate_recommendations (some "k") (some ⟨"Acme", "u", "d"⟩)
        [⟨"n", "r", "g", "c"⟩] [] [] .notJson (fun _ => .apiFailure) "t"
        ⟨[], [], [], 0, 0, 0⟩).db = ⟨[], [], [], 0, 0, 0⟩ ∧
    (generate_recommendations (some "k") (some ⟨"Acme", "u", "d"⟩)
        [⟨"n", "r", "g", "c"⟩] [] [] .notJson (fun _ => .apiFailure) "t"
        ⟨[], [], [], 0, 0, 0⟩).ok = false ∧
    (generate_recommendations (some "k") (some ⟨"Acme", "u", "d"⟩)
        [⟨"n", "r", "g", "c"⟩] [] [] .notJson (fun _ => .apiFailure) "t"
        ⟨[], [], [], 0, 0, 0⟩).trace = [] :=
  C1_fatal_selection_writes_nothing (some "k") (some ⟨"Acme", "u", "d"⟩)
    [⟨"n", "r", "g", "c"⟩] [] [] .notJson (fun _ => .apiFailure) "t"
    ⟨[], [], [], 0, 0, 0⟩ (Or.inr (Or.inr (Or.inl rfl)))

/-- Claim C3: if any single entry of the selector's action list has an
`action_id` outside the six-id taxonomy, the whole run aborts with the
store untouched, even when all other entries are valid (lines 573-578). -/
theorem C3_invalid_id_aborts_run (api_key : Option String)
    (brand : Option Brand) (icps : List ICP) (chats : List Chat)
    (domains : List DomainDict) (acts : List SelAction)
    (gens : Nat → GenResp) (now : String) (db : DB) (a : SelAction)
    (ha : a ∈ acts) (hbad : a.action_id ∉ valid_ids) :
    (generate_recommendations api_key brand icps chats domains
        (.actions acts) gens now db).db = db ∧
    (generate_recommendations api_key brand icps chats domains
        (.actions acts) gens now db).ok = false :=
  have h := genRec_fatal api_key brand icps chats domains (.actions acts)
    gens now db
    (Or.inr (Or.inr (Or.inr (Or.inr
      ⟨acts, rfl, Or.inr ⟨a, ha, hbad⟩⟩))))
  ⟨h.1, h.2.1⟩

theorem C3_witness :
    (generate_recommendations (some "k") (some ⟨"Acme", "u", "d"⟩)
        [⟨"n", "r", "g", "c"⟩] [] []
        (.actions [⟨"linkedin_posts", "r", [], some 1⟩,
          ⟨"tiktok_dances", "r", [], some 2⟩,
          ⟨"blog_content", "r", [], some 3⟩])
        (fun _ => .apiFailure) "t" ⟨[], [], [], 0, 0, 0⟩).db =
      ⟨[], [], [], 0, 0, 0⟩ ∧
    (generate_recommendations (some "k") (some ⟨"Acme", "u", "d"⟩)
        [⟨"n", "r", "g", "c"⟩] [] []
        (.actions [⟨"linkedin_posts", "r", [], some 1⟩,
          ⟨"tiktok_dances", "r", [], some 2⟩,
          ⟨"blog_content", "r", [], some 3⟩])
        (fun _ => .apiFailure) "t" ⟨[], [], [], 0, 0, 0⟩).ok = false :=
  C3_invalid_id_aborts_run (some "k") (some ⟨"Acme", "u", "d"⟩)
    [⟨"n", "r", "g", "c"⟩] [] []
    [⟨"linkedin_posts", "r", [], some 1⟩,
     ⟨"tiktok_dances", "r", [], some 2⟩,
     ⟨"blog_content", "r", [], some 3⟩]
    (fun _ => .apiFailure) "t" ⟨[], [], [], 0, 0, 0⟩
    ⟨"tiktok_dances", "r", [], some 2⟩ (by simp) (by decide)

/-- Claim C8: a selector response with zero actions aborts the run fatally
(lines 566-568), whereas a non-empty action list whose length is outside
[3,5] only records a non-fatal warning and the run proceeds to content
generation with all returned actions — one generator call per action
(lines 570-571, 617). -/
theorem C8_count_validation (api_key : Option String) (b : Brand)
    (icps : List ICP) (chats : List Chat) (domains : List DomainDict)
    (acts : List SelAction) (gens : Nat → GenResp) (now : String) (db : DB)
    (hk : apiKeyBad api_key = false) (hi : icps ≠ []) :
    (generate_recommendations api_key (some b) icps chats domains
        (.actions []) gens now db = ⟨db, false, 1, 0, []⟩) ∧
    (acts ≠ [] → (acts.length < 3 ∨ 5 < acts.length) →
      (∀ a ∈ acts, a.action_id ∈ valid_ids) →
      (generate_recommendations api_key (some b) icps chats domains
          (.actions acts) gens now db).ok = true ∧
      (generate_recommendations api_key (some b) icps chats domains
          (.actions acts) gens now db).apiCalls = 1 + acts.length ∧
      1 ≤ (generate_recommendations api_key (some b) icps chats domains
          (.actions acts) gens now db).warnings) := by
  have hi' : icps.length ≠ 0 := fun h0 => hi (List.length_eq_zero.mp h0)
  constructor
  · unfold generate_recommendations
    simp [hk, hi']
  · intro hne hcount hvalid
    have hlen : acts.length ≠ 0 := fun h0 => hne (List.length_eq_zero.mp h0)
    unfold generate_recommendations
    simp only [hk, Bool.false_eq_true, if_false, hi', hlen]
    simp only [List.any_eq_true, Bool.not_eq_true',
      Bool.not_eq_true, ← Bool.not_eq_true]
    rw [if_neg]
    · refine ⟨rfl, rfl, ?_⟩
      have hb : (decide (acts.length < 3) || decide (acts.length > 5)) =
          true := by
        rcases hcount with h | h <;> simp [h]
      simp only [hb, if_true]
      omega
    · rintro ⟨x, hx, hnx⟩
      exact hnx (by simpa using hvalid x hx)


lemma processAction_skip (db : DB) (sid : Nat) (a : SelAction) (r : GenResp)
    (h : recoverableGenFailure r) : processAction db sid a r = (db, 1, []) := by
  rcases h with rfl | rfl | rfl | rfl | rfl <;> rfl

lemma genRec_success (api_key : Option String) (b : Brand) (icps : List ICP)
    (chats : List Chat) (domains : List DomainDict) (acts : List SelAction)
    (gens : Nat → GenResp) (now : String) (db : DB)
    (hk : apiKeyBad api_key = false) (hi : icps ≠ []) (hne : acts ≠ [])
    (hvalid : ∀ a ∈ acts, a.action_id ∈ valid_ids) :
    (generate_recommendations api_key (some b) icps chats domains
        (.actions acts) gens now db).ok = true ∧
    (generate_recommendations api_key (some b) icps chats domains
        (.actions acts) gens now db).db.sessions =
      db.sessions ++ [⟨db.nextSessionId, now, b.name, icps.length,
        chats.length, domains.length⟩] := by
  have hi' : icps.length ≠ 0 := fun h0 => hi (List.length_eq_zero.mp h0)
  have hlen : acts.length ≠ 0 := fun h0 => hne (List.length_eq_zero.mp h0)
  unfold generate_recommendations
  simp only [hk, Bool.false_eq_true, if_false, hi', hlen]
  simp only [List.any_eq_true, Bool.not_eq_true',
    Bool.not_eq_true, ← Bool.not_eq_true]
  rw [if_neg]
  · exact ⟨rfl, by rw [runLoop_sessions]⟩
  · rintro ⟨x, hx, hnx⟩
    exact hnx (by simpa using hvalid x hx)

/-- Claim C4: each recoverable content-generation failure (generator call
raised / empty response, unparseable JSON, missing `'examples'`, empty
array) only warns and skips that action, writing nothing for it, while the
run continues and the session row stays; concretely, a run with 4 selected
actions whose second fails generation yields exactly 1 session row, 3
action rows (none for the failed action type), and at least one example
row per surviving action. -/
theorem C4_recoverable_skip :
    (∀ (db : DB) (sid : Nat) (a : SelAction) (r : GenResp),
      recoverableGenFailure r → processAction db sid a r = (db, 1, [])) ∧
    (∀ (api_key : Option String) (b : Brand) (icps : List ICP)
      (chats : List Chat) (domains : List DomainDict)
      (acts : List SelAction) (gens : Nat → GenResp) (now : String)
      (db : DB), apiKeyBad api_key = false → icps ≠ [] → acts ≠ [] →
      (∀ a ∈ acts, a.action_id ∈ valid_ids) →
      (generate_recommendations api_key (some b) icps chats domains
          (.actions acts) gens now db).ok = true ∧
      (generate_recommendations api_key (some b) icps chats domains
          (.actions acts) gens now db).db.sessions =
        db.sessions ++ [⟨db.nextSessionId, now, b.name, icps.length,
          chats.length, domains.length⟩]) ∧
    ((generate_recommendations (some "k") (some ⟨"Acme", "u", "d"⟩)
        [⟨"Emma", "r", "g", "c"⟩] [] []
        (.actions [⟨"linkedin_posts", "r1", ["Emma"], some 1⟩,
          ⟨"blog_content", "r2", ["Emma"], some 2⟩,
          ⟨"email_campaigns", "r3", ["Emma"], some 3⟩,
          ⟨"social_media_threads", "r4", ["Emma"], some 4⟩])
        (fun i => if i = 1 then GenResp.notJson
          else GenResp.examples [⟨some "T", some "C", some "N"⟩])
        "t" ⟨[], [], [], 0, 0, 0⟩).db.sessions.length = 1 ∧
      (generate_recommendations (some "k") (some ⟨"Acme", "u", "d"⟩)
        [⟨"Emma", "r", "g", "c"⟩] [] []
        (.actions [⟨"linkedin_posts", "r1", ["Emma"], some 1⟩,
          ⟨"blog_content", "r2", ["Emma"], some 2⟩,
          ⟨"email_campaigns", "r3", ["Emma"], some 3⟩,
          ⟨"social_media_threads", "r4", ["Emma"], some 4⟩])
        (fun i => if i = 1 then GenResp.notJson
          else GenResp.examples [⟨some "T", some "C", some "N"⟩])
        "t" ⟨[], [], [], 0, 0, 0⟩).db.actions.map
          (fun ar => ar.action_type) =
        ["linkedin_posts", "email_campaigns", "social_media_threads"] ∧
      ((generate_recommendations (some "k") (some ⟨"Acme", "u", "d"⟩)
        [⟨"Emma", "r", "g", "c"⟩] [] []
        (.actions [⟨"linkedin_posts", "r1", ["Emma"], some 1⟩,
          ⟨"blog_content", "r2", ["Emma"], some 2⟩,
          ⟨"email_campaigns", "r3", ["Emma"], some 3⟩,
          ⟨"social_media_threads", "r4", ["Emma"], some 4⟩])
        (fun i => if i = 1 then GenResp.notJson
          else GenResp.examples [⟨some "T", some "C", some "N"⟩])
        "t" ⟨[], [], [], 0, 0, 0⟩).db.actions.all
          (fun ar => (generate_recommendations (some "k")
            (some ⟨"Acme", "u", "d"⟩) [⟨"Emma", "r", "g", "c"⟩] [] []
            (.actions [⟨"linkedin_posts", "r1", ["Emma"], some 1⟩,
              ⟨"blog_content", "r2", ["Emma"], some 2⟩,
              ⟨"email_campaigns", "r3", ["Emma"], some 3⟩,
              ⟨"social_media_threads", "r4", ["Emma"], some 4⟩])
            (fun i => if i = 1 then GenResp.notJson
              else GenResp.examples [⟨some "T", some "C", some "N"⟩])
            "t" ⟨[], [], [], 0, 0, 0⟩).db.examples.any
              (fun er => er.action_id == ar.id)) = true)) :=
  ⟨processAction_skip,
   fun api_key b icps chats domains acts gens now db hk hi hne hvalid =>
     genRec_success api_key b icps chats domains acts gens now db hk hi
       hne hvalid,
   by decide, by decide, by decide⟩

lemma processAction_actions_eq (db : DB) (sid : Nat) (a : SelAction)
    (exs : List GenExample) (hne : exs ≠ []) :
    (processAction db sid a (.examples exs)).1.actions =
      db.actions ++ [mkActionRow db sid a] := by
  have hlen : exs.length ≠ 0 := fun h0 => hne (List.length_eq_zero.mp h0)
  simp only [processAction, hlen, if_false]
  split_ifs <;> rfl

/-- Claim C9: a persisted action's stored priority equals the selector's
numeric priority when present and defaults to 99 when absent
(`action.get('priority', 99)`, line 652); a missing priority aborts
neither the action (its row is still appended) nor the run. -/
theorem C9_priority_defaulting :
    (∀ (db : DB) (sid : Nat) (a : SelAction) (exs : List GenExample),
      exs ≠ [] →
      (processAction db sid a (.examples exs)).1.actions =
        db.actions ++ [mkActionRow db sid a]) ∧
    (∀ (db : DB) (sid : Nat) (a : SelAction),
      (∀ p, a.priority = some p → (mkActionRow db sid a).priority = p) ∧
      (a.priority = none → (mkActionRow db sid a).priority = 99)) ∧
    (∀ (api_key : Option String) (b : Brand) (icps : List ICP)
      (chats : List Chat) (domains : List DomainDict)
      (acts : List SelAction) (gens : Nat → GenResp) (now : String)
      (db : DB), apiKeyBad api_key = false → icps ≠ [] → acts ≠ [] →
      (∀ a ∈ acts, a.action_id ∈ valid_ids) →
      (generate_recommendations api_key (some b) icps chats domains
          (.actions acts) gens now db).ok = true) :=
  ⟨processAction_actions_eq,
   fun db sid a =>
     ⟨fun p hp => by simp [mkActionRow, hp],
      fun hn => by simp [mkActionRow, hn]⟩,
   fun api_key b icps chats domains acts gens now db hk hi hne hvalid =>
     (genRec_success api_key b icps chats domains acts gens now db hk hi
       hne hvalid).1⟩

theorem C9_witness :
    (processAction ⟨[], [], [], 0, 0, 0⟩ 0
        ⟨"linkedin_posts", "r", [], none⟩
        (.examples [⟨some "T", some "C", some "N"⟩])).1.actions =
      [] ++ [mkActionRow ⟨[], [], [], 0, 0, 0⟩ 0
        ⟨"linkedin_posts", "r", [], none⟩] ∧
    (mkActionRow ⟨[], [], [], 0, 0, 0⟩ 0
      ⟨"linkedin_posts", "r", [], none⟩).priority = 99 ∧
    (mkActionRow ⟨[], [], [], 0, 0, 0⟩ 0
      ⟨"linkedin_posts", "r", [], some 7⟩).priority = 7 :=
  ⟨C9_priority_defaulting.1 ⟨[], [], [], 0, 0, 0⟩ 0
      ⟨"linkedin_posts", "r", [], none⟩ [⟨some "T", some "C", some "N"⟩]
      (by decide),
   (C9_priority_defaulting.2.1 ⟨[], [], [], 0, 0, 0⟩ 0
      ⟨"linkedin_posts", "r", [], none⟩).2 rfl,
   (C9_priority_defaulting.2.1 ⟨[], [], [], 0, 0, 0⟩ 0
      ⟨"linkedin_posts", "r", [], some 7⟩).1 7 rfl⟩

/-- Claim C10: persisted examples default a missing `'title'` to
`"Untitled"` and a missing `'targeting_notes'` to `""`, while `'content'`
is mandatory: an example without it raises during insertion, so no example
row of that action is committed (in particular no row with null content),
the already-committed action row stays, a warning is emitted, and the run
moves on (lines 657-681). -/
theorem C10_example_field_defaults :
    (∀ (db : DB) (sid : Nat) (a : SelAction) (exs : List GenExample),
      exs ≠ [] → (∀ e ∈ exs, e.content.isSome) →
      (processAction db sid a (.examples exs)).1.examples =
        db.examples ++ exs.enum.map (fun ei =>
          mkExampleRow (db.nextExampleId + ei.1) db.nextActionId ei.2) ∧
      (processAction db sid a (.examples exs)).2.1 = 0) ∧
    (∀ (db : DB) (sid : Nat) (a : SelAction) (exs : List GenExample)
      (e : GenExample), e ∈ exs → e.content = none →
      (processAction db sid a (.examples exs)).1.examples = db.examples ∧
      (processAction db sid a (.examples exs)).1.actions =
        db.actions ++ [mkActionRow db sid a] ∧
      (processAction db sid a (.examples exs)).2.1 = 1) ∧
    (∀ (eid aid : Nat) (e : GenExample),
      (mkExampleRow eid aid e).title = e.title.getD "Untitled" ∧
      (mkExampleRow eid aid e).targeting_notes =
        e.targeting_notes.getD "") := by
  refine ⟨?_, ?_, fun eid aid e => ⟨rfl, rfl⟩⟩
  · intro db sid a exs hne hcontent
    have hlen : exs.length ≠ 0 := fun h0 => hne (List.length_eq_zero.mp h0)
    have hall : exs.all (fun e => e.content.isSome) = true := by
      rw [List.all_eq_true]
      intro e he
      simpa using hcontent e he
    simp [processAction, hlen, hall, mkActionRow]
  · intro db sid a exs e he hc
    have hne : exs ≠ [] := fun h0 => by subst h0; simp at he
    have hlen : exs.length ≠ 0 := fun h0 => hne (List.length_eq_zero.mp h0)
    have hall : exs.all (fun e => e.content.isSome) = false := by
      rw [List.all_eq_false]
      exact ⟨e, he, by simp [hc]⟩
    simp [processAction, hlen, hall]

theorem C10_witness :
    (processAction ⟨[], [], [], 0, 0, 0⟩ 0
        ⟨"linkedin_posts", "r", [], some 1⟩
        (.examples [⟨none, some "C", none⟩])).1.examples =
      [] ++ [⟨none, some "C", none⟩].enum.map (fun ei =>
        mkExampleRow (0 + ei.1) 0 ei.2) ∧
    (processAction ⟨[], [], [], 0, 0, 0⟩ 0
        ⟨"linkedin_posts", "r", [], some 1⟩
        (.examples [⟨some "T", none, some "N"⟩])).1.examples = [] ∧
    (mkExampleRow 0 0 ⟨none, some "C", none⟩).title = "Untitled" ∧
    (mkExampleRow 0 0 ⟨none, some "C", none⟩).targeting_notes = "" :=
  ⟨(C10_example_field_defaults.1 ⟨[], [], [], 0, 0, 0⟩ 0
      ⟨"linkedin_posts", "r", [], some 1⟩ [⟨none, some "C", none⟩]
      (by decide) (by decide)).1,
   (C10_example_field_defaults.2.1 ⟨[], [], [], 0, 0, 0⟩ 0
      ⟨"linkedin_posts", "r", [], some 1⟩ [⟨some "T", none, some "N"⟩]
      ⟨some "T", none, some "N"⟩ (by decide) rfl).1,
   (C10_example_field_defaults.2.2 0 0 ⟨none, some "C", none⟩).1,
   (C10_example_field_defaults.2.2 0 0 ⟨none, some "C", none⟩).2⟩

theorem C4_witness :
    processAction ⟨[], [], [], 0, 0, 0⟩ 0
        ⟨"linkedin_posts", "r", [], some 1⟩ .noKey =
      (⟨[], [], [], 0, 0, 0⟩, 1, []) ∧
    (generate_recommendations (some "k") (some ⟨"Acme", "u", "d"⟩)
        [⟨"Emma", "r", "g", "c"⟩] [] []
        (.actions [⟨"linkedin_posts", "r", ["Emma"], some 1⟩])
        (fun _ => GenResp.apiFailure) "t" ⟨[], [], [], 0, 0, 0⟩).ok =
      true :=
  ⟨C4_recoverable_skip.1 ⟨[], [], [], 0, 0, 0⟩ 0
      ⟨"linkedin_posts", "r", [], some 1⟩ .noKey
      (Or.inr (Or.inr (Or.inr (Or.inl rfl)))),
   (C4_recoverable_skip.2.1 (some "k") ⟨"Acme", "u", "d"⟩
      [⟨"Emma", "r", "g", "c"⟩] [] []
      [⟨"linkedin_posts", "r", ["Emma"], some 1⟩]
      (fun _ => GenResp.apiFailure) "t" ⟨[], [], [], 0, 0, 0⟩ rfl
      (by decide) (by decide) (by decide)).1⟩

/-- Claim C2, counterexample: a concrete run in which the selector returns
three valid actions but every content-generation call fails: the run ends
with `True`, one `recommendation_sessions` row, and zero
`recommendation_actions` rows — a persisted session with no action row
referencing it, contradicting the claimed invariant. -/
theorem C2_counterexample :
    (generate_recommendations (some "k") (some ⟨"Acme", "u", "d"⟩)
        [⟨"Emma", "r", "g", "c"⟩] [] []
        (.actions [⟨"linkedin_posts", "r1", ["Emma"], some 1⟩,
          ⟨"blog_content", "r2", ["Emma"], some 2⟩,
          ⟨"email_campaigns", "r3", ["Emma"], some 3⟩])
        (fun _ => GenResp.apiFailure) "t"
        ⟨[], [], [], 0, 0, 0⟩).db.sessions.length = 1 ∧
    (generate_recommendations (some "k") (some ⟨"Acme", "u", "d"⟩)
        [⟨"Emma", "r", "g", "c"⟩] [] []
        (.actions [⟨"linkedin_posts", "r1", ["Emma"], some 1⟩,
          ⟨"blog_content", "r2", ["Emma"], some 2⟩,
          ⟨"email_campaigns", "r3", ["Emma"], some 3⟩])
        (fun _ => GenResp.apiFailure) "t"
        ⟨[], [], [], 0, 0, 0⟩).db.actions = [] ∧
    (generate_recommendations (some "k") (some ⟨"Acme", "u", "d"⟩)
        [⟨"Emma", "r", "g", "c"⟩] [] []
        (.actions [⟨"linkedin_posts", "r1", ["Emma"], some 1⟩,
          ⟨"blog_content", "r2", ["Emma"], some 2⟩,
          ⟨"email_campaigns", "r3", ["Emma"], some 3⟩])
        (fun _ => GenResp.apiFailure) "t"
        ⟨[], [], [], 0, 0, 0⟩).ok = true := by
  refine ⟨?_, ?_, ?_⟩ <;> decide

lemma genRec_cases (api_key : Option String) (brand : Option Brand)
    (icps : List ICP) (chats : List Chat) (domains : List DomainDict)
    (sel : SelectorResp) (gens : Nat → GenResp) (now : String) (db : DB) :
    (generate_recommendations api_key brand icps chats domains sel gens now
        db).db = db ∨
    (∃ b acts, brand = some b ∧ sel = .actions acts ∧ acts ≠ [] ∧
      (∀ a ∈ acts, a.action_id ∈ valid_ids) ∧ apiKeyBad api_key = false ∧
      icps ≠ []) := by
  unfold generate_recommendations
  by_cases hk : apiKeyBad api_key
  · left; simp [hk]
  · simp only [hk, Bool.false_eq_true, if_false]
    cases brand with
    | none => left; rfl
    | some b =>
      by_cases hi : icps.length = 0
      · left; simp [hi]
      · simp only [hi, if_false]
        cases sel with
        | apiFailure => left; rfl
        | empty => left; rfl
        | notJson => left; rfl
        | noKey => left; rfl
        | actions acts =>
          by_cases h0 : acts.length = 0
          · left; simp [h0]
          · simp only [h0, if_false]
            by_cases hbad :
                acts.any (fun a => !(valid_ids.contains a.action_id)) =
                  true
            · left
              rw [if_pos hbad]
            · right
              refine ⟨b, acts, rfl, rfl, ?_, ?_, ?_, ?_⟩
              · intro he
                exact h0 (by simp [he])
              · intro a ha
                rw [List.any_eq_true] at hbad
                push_neg at hbad
                have := hbad a ha
                simpa using this
              · trivial
              · intro he
                exact hi (by simp [he])

/-- Claim C2, amended: a zero-action outcome of the *selector* is terminal —
no session row is persisted; and whenever the stored sessions change, the
selection stage fully succeeded (a non-empty, all-valid action list).
However (see the counterexample) a persisted session may end up with zero
action rows when every per-action content generation fails. -/
theorem C2_amended_zero_actions (api_key : Option String)
    (brand : Option Brand) (icps : List ICP) (chats : List Chat)
    (domains : List DomainDict) (sel : SelectorResp) (gens : Nat → GenResp)
    (now : String) (db : DB) :
    (sel = .actions [] →
      (generate_recommendations api_key brand icps chats domains sel gens
          now db).db = db ∧
      (generate_recommendations api_key brand icps chats domains sel gens
          now db).ok = false) ∧
    ((generate_recommendations api_key brand icps chats domains sel gens
          now db).db.sessions ≠ db.sessions →
      ∃ acts, sel = .actions acts ∧ acts ≠ [] ∧
        ∀ a ∈ acts, a.action_id ∈ valid_ids) := by
  constructor
  · rintro rfl
    have h := genRec_fatal api_key brand icps chats domains (.actions [])
      gens now db
      (Or.inr (Or.inr (Or.inr (Or.inr ⟨[], rfl, Or.inl rfl⟩))))
    exact ⟨h.1, h.2.1⟩
  · intro hneq
    rcases genRec_cases api_key brand icps chats domains sel gens now db
      with h | ⟨b, acts, hb, hs, hne, hv, _, _⟩
    · exact absurd (by rw [h]) hneq
    · exact ⟨acts, hs, hne, hv⟩

theorem C2_amended_witness :
    ((generate_recommendations (some "k") (some ⟨"Acme", "u", "d"⟩)
        [⟨"Emma", "r", "g", "c"⟩] [] [] (.actions [])
        (fun _ => GenResp.apiFailure) "t" ⟨[], [], [], 0, 0, 0⟩).db =
      ⟨[], [], [], 0, 0, 0⟩ ∧
     (generate_recommendations (some "k") (some ⟨"Acme", "u", "d"⟩)
        [⟨"Emma", "r", "g", "c"⟩] [] [] (.actions [])
        (fun _ => GenResp.apiFailure) "t" ⟨[], [], [], 0, 0, 0⟩).ok =
      false) ∧
    (∃ acts, SelectorResp.actions
        [⟨"linkedin_posts", "r1", ["Emma"], some 1⟩] = .actions acts ∧
      acts ≠ [] ∧ ∀ a ∈ acts, a.action_id ∈ valid_ids) :=
  ⟨(C2_amended_zero_actions (some "k") (some ⟨"Acme", "u", "d"⟩)
      [⟨"Emma", "r", "g", "c"⟩] [] [] (.actions [])
      (fun _ => GenResp.apiFailure) "t" ⟨[], [], [], 0, 0, 0⟩).1 rfl,
   (C2_amended_zero_actions (some "k") (some ⟨"Acme", "u", "d"⟩)
      [⟨"Emma", "r", "g", "c"⟩] [] []
      (.actions [⟨"linkedin_posts", "r1", ["Emma"], some 1⟩])
      (fun _ => GenResp.apiFailure) "t" ⟨[], [], [], 0, 0, 0⟩).2
      (by decide)⟩


lemma goodFrom_append (sids aids : List Nat) (l1 l2 : List Ev) :
    goodFrom sids aids (l1 ++ l2) ↔
      goodFrom sids aids l1 ∧
        goodFrom (sidsAfter sids l1) (aidsAfter aids l1) l2 := by
  induction l1 generalizing sids aids with
  | nil => simp [goodFrom, sidsAfter, aidsAfter]
  | cons e rest ih =>
    cases e <;> simp [goodFrom, sidsAfter, aidsAfter, ih, and_assoc]

lemma goodFrom_exampleIns (sids aids : List Nat) (aid : Nat)
    (ha : aid ∈ aids) :
    ∀ l : List ExampleRow, (∀ r ∈ l, r.action_id = aid) →
      goodFrom sids aids (l.map (fun r => Ev.exampleIns r.id r.action_id))
  | [], _ => trivial
  | r :: rest, h => by
    simp only [List.map_cons, goodFrom]
    exact ⟨by rw [h r (by simp)]; exact ha,
      goodFrom_exampleIns sids aids aid ha rest
        (fun x hx => h x (by simp [hx]))⟩

lemma sidsAfter_exampleIns (sids : List Nat) :
    ∀ l : List ExampleRow,
      sidsAfter sids (l.map (fun r => Ev.exampleIns r.id r.action_id)) =
        sids
  | [] => rfl
  | _ :: rest => sidsAfter_exampleIns sids rest

lemma processAction_trace_good (db : DB) (sid : Nat) (a : SelAction)
    (r : GenResp) (sids aids : List Nat) (hs : sid ∈ sids) :
    goodFrom sids aids (processAction db sid a r).2.2 := by
  cases r with
  | examples exs =>
    by_cases h0 : exs.length = 0
    · simp [processAction, h0, goodFrom]
    · by_cases hall : exs.all (fun e => e.content.isSome) = true
      · simp only [processAction, h0, if_false, hall, if_true]
        refine ⟨hs, ?_⟩
        exact goodFrom_exampleIns sids _ (mkActionRow db sid a).id
          (by simp) _
          (fun x hx => by
            obtain ⟨ei, _, rfl⟩ := List.mem_map.mp hx
            rfl)
      · simp [processAction, h0, hall, goodFrom, hs]
  | apiFailure => trivial
  | empty => trivial
  | notJson => trivial
  | noKey => trivial

lemma processAction_sidsAfter (db : DB) (sid : Nat) (a : SelAction)
    (r : GenResp) (sids : List Nat) :
    sidsAfter sids (processAction db sid a r).2.2 = sids := by
  cases r with
  | examples exs =>
    by_cases h0 : exs.length = 0
    · simp [processAction, h0, sidsAfter]
    · by_cases hall : exs.all (fun e => e.content.isSome) = true
      · simp only [processAction, h0, if_false, hall, if_true]
        exact sidsAfter_exampleIns sids _
      · simp [processAction, h0, hall, sidsAfter]
  | apiFailure => rfl
  | empty => rfl
  | notJson => rfl
  | noKey => rfl

lemma runLoop_trace_good (sid : Nat) (gens : Nat → GenResp) :
    ∀ (acts : List SelAction) (idx : Nat) (db : DB)
      (sids aids : List Nat), sid ∈ sids →
      goodFrom sids aids (runLoop sid gens acts idx db).2.2
  | [], _, _, _, _, _ => trivial
  | a :: rest, idx, db, sids, aids, hs => by
    simp only [runLoop]
    rw [goodFrom_append]
    refine ⟨processAction_trace_good db sid a (gens idx) sids aids hs, ?_⟩
    rw [processAction_sidsAfter]
    exact runLoop_trace_good sid gens rest (idx + 1) _ sids _ hs

lemma processAction_integrity (db : DB) (sid : Nat) (a : SelAction)
    (r : GenResp) (hs : ∃ s ∈ db.sessions, s.id = sid)
    (h : dbIntegrity db) : dbIntegrity (processAction db sid a r).1 := by
  cases r with
  | examples exs =>
    by_cases h0 : exs.length = 0
    · simpa [processAction, h0] using h
    · by_cases hall : exs.all (fun e => e.content.isSome) = true
      · simp only [processAction, h0, if_false, hall, if_true]
        constructor
        · intro x hx
          rcases List.mem_append.mp hx with hx | hx
          · exact h.1 x hx
          · rcases List.mem_singleton.mp hx with rfl
            exact hs
        · intro e he
          rcases List.mem_append.mp he with he | he
          · obtain ⟨x, hx, hid⟩ := h.2 e he
            exact ⟨x, List.mem_append.mpr (Or.inl hx), hid⟩
          · obtain ⟨ei, _, rfl⟩ := List.mem_map.mp he
            exact ⟨mkActionRow db sid a,
              List.mem_append.mpr (Or.inr (by simp)), rfl⟩
      · simp only [processAction, h0, if_false, hall, Bool.false_eq_true,
          if_false]
        constructor
        · intro x hx
          rcases List.mem_append.mp hx with hx | hx
          · exact h.1 x hx
          · rcases List.mem_singleton.mp hx with rfl
            exact hs
        · intro e he
          obtain ⟨x, hx, hid⟩ := h.2 e he
          exact ⟨x, List.mem_append.mpr (Or.inl hx), hid⟩
  | apiFailure => exact h
  | empty => exact h
  | notJson => exact h
  | noKey => exact h

lemma runLoop_integrity (sid : Nat) (gens : Nat → GenResp) :
    ∀ (acts : List SelAction) (idx : Nat) (db : DB),
      (∃ s ∈ db.sessions, s.id = sid) → dbIntegrity db →
      dbIntegrity (runLoop sid gens acts idx db).1
  | [], _, _, _, h => h
  | a :: rest, idx, db, hs, h => by
    simp only [runLoop]
    refine runLoop_integrity sid gens rest (idx + 1) _ ?_
      (processAction_integrity db sid a (gens idx) hs h)
    rw [processAction_sessions]
    exact hs

/-- Claim C5: the persistence order is invariant: replaying the committed
write trace of any run from empty id sets never references a missing row
(the session insert precedes every action insert referencing its id, and
each action insert precedes all of its example inserts), and referential
integrity of the three tables is preserved by every run: afterwards every
`recommendation_examples.action_id` names an existing action row and every
`recommendation_actions.session_id` names an existing session row. -/
theorem C5_persistence_order (api_key : Option String)
    (brand : Option Brand) (icps : List ICP) (chats : List Chat)
    (domains : List DomainDict) (sel : SelectorResp) (gens : Nat → GenResp)
    (now : String) (db : DB) :
    goodTrace (generate_recommendations api_key brand icps chats domains
      sel gens now db).trace ∧
    (dbIntegrity db →
      dbIntegrity (generate_recommendations api_key brand icps chats
        domains sel gens now db).db) := by
  unfold generate_recommendations
  by_cases hk : apiKeyBad api_key
  · simp only [hk, if_true]
    exact ⟨trivial, fun h => h⟩
  · simp only [hk, Bool.false_eq_true, if_false]
    cases brand with
    | none => exact ⟨trivial, fun h => h⟩
    | some b =>
      by_cases hi : icps.length = 0
      · simp only [hi, if_true]
        exact ⟨trivial, fun h => h⟩
      · simp only [hi, if_false]
        cases sel with
        | apiFailure => exact ⟨trivial, fun h => h⟩
        | empty => exact ⟨trivial, fun h => h⟩
        | notJson => exact ⟨trivial, fun h => h⟩
        | noKey => exact ⟨trivial, fun h => h⟩
        | actions acts =>
          by_cases h0 : acts.length = 0
          · simp only [h0, if_true]
            exact ⟨trivial, fun h => h⟩
          · simp only [h0, if_false]
            by_cases hbad :
                acts.any (fun a => !(valid_ids.contains a.action_id)) =
                  true
            · rw [if_pos hbad]
              exact ⟨trivial, fun h => h⟩
            · rw [if_neg hbad]
              constructor
              · show goodFrom [db.nextSessionId] [] _
                exact runLoop_trace_good db.nextSessionId gens acts 0 _
                  [db.nextSessionId] [] (by simp)
              · intro h
                refine runLoop_integrity db.nextSessionId gens acts 0 _
                  ⟨⟨db.nextSessionId, now, b.name, icps.length,
                    chats.length, domains.length⟩, by simp, rfl⟩ ?_
                constructor
                · intro x hx
                  obtain ⟨s, hsmem, hsid⟩ := h.1 x hx
                  exact ⟨s, List.mem_append.mpr (Or.inl hsmem), hsid⟩
                · exact h.2

theorem C5_witness :
    goodTrace (generate_recommendations (some "k")
      (some ⟨"Acme", "u", "d"⟩) [⟨"Emma", "r", "g", "c"⟩] [] []
      (.actions [⟨"linkedin_posts", "r1", ["Emma"], some 1⟩])
      (fun _ => GenResp.examples [⟨some "T", some "C", some "N"⟩]) "t"
      ⟨[], [], [], 0, 0, 0⟩).trace ∧
    dbIntegrity (generate_recommendations (some "k")
      (some ⟨"Acme", "u", "d"⟩) [⟨"Emma", "r", "g", "c"⟩] [] []
      (.actions [⟨"linkedin_posts", "r1", ["Emma"], some 1⟩])
      (fun _ => GenResp.examples [⟨some "T", some "C", some "N"⟩]) "t"
      ⟨[], [], [], 0, 0, 0⟩).db :=
  have h := C5_persistence_order (some "k") (some ⟨"Acme", "u", "d"⟩)
    [⟨"Emma", "r", "g", "c"⟩] [] []
    (.actions [⟨"linkedin_posts", "r1", ["Emma"], some 1⟩])
    (fun _ => GenResp.examples [⟨some "T", some "C", some "N"⟩]) "t"
    ⟨[], [], [], 0, 0, 0⟩
  ⟨h.1, h.2 ⟨by simp [dbIntegrity], by simp [dbIntegrity]⟩⟩

/-- Claim C6, counterexample: with two stored domains tied at 10 average
citations, both relative orders satisfy the contract of
`ORDER BY citiatons DESC LIMIT 20` (the SQL fixes no tie-break), so
`load_top_domains` has no deterministic tie order, and an admissible
output differs from the claimed name-tiebroken sort. -/
theorem C6_counterexample :
    load_top_domains_rel [⟨"a", "UGC", 1, 10⟩, ⟨"b", "UGC", 1, 10⟩] 20
      ([⟨"a", "UGC", 1, 10⟩, ⟨"b", "UGC", 1, 10⟩].map toDomainDict) ∧
    load_top_domains_rel [⟨"a", "UGC", 1, 10⟩, ⟨"b", "UGC", 1, 10⟩] 20
      ([⟨"b", "UGC", 1, 10⟩, ⟨"a", "UGC", 1, 10⟩].map toDomainDict) ∧
    ([⟨"a", "UGC", 1, 10⟩, ⟨"b", "UGC", 1, 10⟩].map toDomainDict ≠
      [⟨"b", "UGC", 1, 10⟩, ⟨"a", "UGC", 1, 10⟩].map toDomainDict) ∧
    ([⟨"b", "UGC", 1, 10⟩, ⟨"a", "UGC", 1, 10⟩].map toDomainDict ≠
      load_top_domains_claimed
        [⟨"a", "UGC", 1, 10⟩, ⟨"b", "UGC", 1, 10⟩] 20) :=
  ⟨⟨[⟨"a", "UGC", 1, 10⟩, ⟨"b", "UGC", 1, 10⟩], by decide, by decide,
     rfl⟩,
   ⟨[⟨"b", "UGC", 1, 10⟩, ⟨"a", "UGC", 1, 10⟩], by decide, by decide,
     rfl⟩,
   by decide, by decide⟩

/-- Claim C6, amended: every possible return of `load_top_domains` has at
most `limit` records and is ordered by average-citations descending
(non-strictly), and when the stored citation values are distinct the
order is fully determined: for stored domains [(A,10),(B,30),(C,20)] the
returned list is exactly B, C, A.  Ties between equal citation values are
broken arbitrarily by the store, not deterministically. -/
theorem C6_amended_ranking :
    (∀ (stored : List PeecDomain) (limit : Nat) (out : List DomainDict),
      load_top_domains_rel stored limit out →
      out.length ≤ limit ∧
      out.Pairwise (fun x y => y.avg_citations ≤ x.avg_citations)) ∧
    (∀ out : List DomainDict,
      load_top_domains_rel
        [⟨"A", "t", 1, 10⟩, ⟨"B", "t", 1, 30⟩, ⟨"C", "t", 1, 20⟩] 20
        out →
      out = [⟨"B", "t", 1, 30⟩, ⟨"C", "t", 1, 20⟩,
        ⟨"A", "t", 1, 10⟩].map toDomainDict) := by
  constructor
  · rintro stored limit out ⟨p, hperm, hsort, rfl⟩
    constructor
    · simp only [List.length_map, List.length_take]
      exact min_le_left _ _
    · rw [List.pairwise_map]
      exact List.Pairwise.sublist (List.take_sublist limit p) hsort
  · rintro out ⟨p, hperm, hsort, rfl⟩
    have hlen : p.length = 3 := by simpa using hperm.length_eq
    rcases p with _ | ⟨x, _ | ⟨y, _ | ⟨z, _ | ⟨w, rest⟩⟩⟩⟩ <;>
      simp only [List.length_nil, List.length_cons] at hlen <;>
      try omega
    have hx : x ∈ ([⟨"A", "t", 1, 10⟩, ⟨"B", "t", 1, 30⟩,
        ⟨"C", "t", 1, 20⟩] : List PeecDomain) :=
      hperm.mem_iff.mp (by simp)
    have hy : y ∈ ([⟨"A", "t", 1, 10⟩, ⟨"B", "t", 1, 30⟩,
        ⟨"C", "t", 1, 20⟩] : List PeecDomain) :=
      hperm.mem_iff.mp (by simp)
    have hz : z ∈ ([⟨"A", "t", 1, 10⟩, ⟨"B", "t", 1, 30⟩,
        ⟨"C", "t", 1, 20⟩] : List PeecDomain) :=
      hperm.mem_iff.mp (by simp)
    simp only [List.mem_cons, List.mem_singleton,
      List.not_mem_nil, or_false] at hx hy hz
    rcases hx with rfl | rfl | rfl <;> rcases hy with rfl | rfl | rfl <;>
      rcases hz with rfl | rfl | rfl <;>
      first
        | rfl
        | exact absurd hperm (by decide)
        | exact absurd hsort (by decide)

theorem C6_amended_witness :
    (([⟨"B", "t", 1, 30⟩, ⟨"C", "t", 1, 20⟩,
        ⟨"A", "t", 1, 10⟩] : List PeecDomain).map toDomainDict).length ≤
      20 ∧
    (([⟨"B", "t", 1, 30⟩, ⟨"C", "t", 1, 20⟩,
        ⟨"A", "t", 1, 10⟩] : List PeecDomain).map toDomainDict).Pairwise
      (fun x y => y.avg_citations ≤ x.avg_citations) ∧
    ([⟨"B", "t", 1, 30⟩, ⟨"C", "t", 1, 20⟩,
        ⟨"A", "t", 1, 10⟩] : List PeecDomain).map toDomainDict =
      [⟨"B", "t", 1, 30⟩, ⟨"C", "t", 1, 20⟩,
        ⟨"A", "t", 1, 10⟩].map toDomainDict :=
  have hrel : load_top_domains_rel
      [⟨"A", "t", 1, 10⟩, ⟨"B", "t", 1, 30⟩, ⟨"C", "t", 1, 20⟩] 20
      (([⟨"B", "t", 1, 30⟩, ⟨"C", "t", 1, 20⟩,
        ⟨"A", "t", 1, 10⟩] : List PeecDomain).map toDomainDict) :=
    ⟨[⟨"B", "t", 1, 30⟩, ⟨"C", "t", 1, 20⟩, ⟨"A", "t", 1, 10⟩],
     by decide, by decide, rfl⟩
  ⟨(C6_amended_ranking.1 _ 20 _ hrel).1,
   (C6_amended_ranking.1 _ 20 _ hrel).2,
   C6_amended_ranking.2 _ hrel⟩

theorem C8_witness :
    (generate_recommendations (some "k") (some ⟨"Acme", "u", "d"⟩)
        [⟨"Emma", "r", "g", "c"⟩] [] [] (.actions [])
        (fun _ => GenResp.apiFailure) "t" ⟨[], [], [], 0, 0, 0⟩ =
      ⟨⟨[], [], [], 0, 0, 0⟩, false, 1, 0, []⟩) ∧
    ((generate_recommendations (some "k") (some ⟨"Acme", "u", "d"⟩)
        [⟨"Emma", "r", "g", "c"⟩] [] []
        (.actions [⟨"linkedin_posts", "r1", ["Emma"], some 1⟩])
        (fun _ => GenResp.apiFailure) "t"
        ⟨[], [], [], 0, 0, 0⟩).ok = true ∧
      (generate_recommendations (some "k") (some ⟨"Acme", "u", "d"⟩)
        [⟨"Emma", "r", "g", "c"⟩] [] []
        (.actions [⟨"linkedin_posts", "r1", ["Emma"], some 1⟩])
        (fun _ => GenResp.apiFailure) "t"
        ⟨[], [], [], 0, 0, 0⟩).apiCalls =
        1 + ([⟨"linkedin_posts", "r1", ["Emma"], some 1⟩] :
          List SelAction).length ∧
      1 ≤ (generate_recommendations (some "k") (some ⟨"Acme", "u", "d"⟩)
        [⟨"Emma", "r", "g", "c"⟩] [] []
        (.actions [⟨"linkedin_posts", "r1", ["Emma"], some 1⟩])
        (fun _ => GenResp.apiFailure) "t"
        ⟨[], [], [], 0, 0, 0⟩).warnings) :=
  have h := C8_count_validation (some "k") ⟨"Acme", "u", "d"⟩
    [⟨"Emma", "r", "g", "c"⟩] [] []
    [⟨"linkedin_posts", "r1", ["Emma"], some 1⟩]
    (fun _ => GenResp.apiFailure) "t" ⟨[], [], [], 0, 0, 0⟩ rfl
    (by decide)
  ⟨h.1, h.2 (by decide) (by decide) (by decide)⟩
